import Mathlib

/-!
Shallow embedding of src/dump_ebcdic_tables.py.

The script drives IBM i ILE foreign calls (via the libc bridge primitives
_ILECALLX, _PGMCALL, _SETSPP, _MEMCPY_WT2, _RSLOBJ2) to enumerate the
codepoints of EBCDIC encodings and dump conversion tables to text/HTML.

The foreign side is modelled by explicit effect records: each record carries
the return code of the foreign call primitive together with the data the
foreign side writes back through the argument list (result slot, output
buffers, feedback arrays).  The Python functions themselves are translated
directly; a Python `raise` is modelled with `Except.error`.
-/

namespace DumpEbcdic

/-- ILEPointer: a 16-byte tagged pointer with two 64-bit lanes `hi` and `lo`. -/
structure ILEPointer where
  hi : Nat
  lo : Nat
deriving DecidableEq, Repr

/-- ARG_END = 0: end-of-arguments sentinel of an _ILECALLX signature. -/
def ARG_END : Int := 0

/-- ARG_MEMPTR = -11: pass-as-foreign-memory-pointer signature code. -/
def ARG_MEMPTR : Int := -11

/--
The lazy symbol-resolution pattern shared by get_ile_errno, iconv_open,
iconv_close, iconv and get_encoding_scheme:

  try: ptr = f.ptr
  except AttributeError: ptr = f.ptr = load_symbol(...)

`cache` is the current state of the function attribute `f.ptr` (`none` when
the attribute is unset), `attempt` is the outcome the resolution primitive
(load_symbol / _RSLOBJ2) would produce if invoked now.  The result is the
raised-or-returned handle, the new state of `f.ptr`, and the number of
resolution calls actually performed.
-/
def lazy_resolve (cache : Option ILEPointer) (attempt : Except String ILEPointer) :
    Except String ILEPointer × Option ILEPointer × Nat :=
  match cache with
  | some p => (Except.ok p, some p, 0)
  | none =>
    match attempt with
    | Except.ok p => (Except.ok p, some p, 1)
    | Except.error e => (Except.error e, none, 1)

/-- Big-endian interpretation of a byte string: `int(buf.hex(), 16)`. -/
def bytesBE (bs : List Nat) : Nat :=
  bs.foldl (fun a b => a * 256 + b) 0

/-- Foreign behaviour of one get_ile_errno call: the _ILECALLX return code and
the 4-byte errno cell the returned ILE pointer designates. -/
structure ErrnoEffect where
  rc : Int
  cell : List Nat
deriving DecidableEq, Repr

/-- signature = c_int16(ARG_END): the empty (zero-argument) signature. -/
def get_ile_errno_signature : List Int := [ARG_END]

/-- Length argument of the guarded _MEMCPY_WT2 copy in get_ile_errno. -/
def errno_copy_len : Nat := 4

/-- get_ile_errno: call the zero-argument __errno accessor, then copy
`errno_copy_len` bytes of the designated errno cell across the boundary and
read them as a big-endian unsigned integer. -/
def get_ile_errno (eff : ErrnoEffect) : Except String Nat :=
  if eff.rc ≠ 0 then Except.error "Failed to call QtqIconvOpen with _ILECALL"
  else Except.ok (bytesBE (eff.cell.take errno_copy_len))

/-- iconv_t: the return field `rtn` plus the opaque 12-word descriptor `cd`. -/
structure iconv_t where
  rtn : Int
  cd : List Int
deriving DecidableEq, Repr

/-- Foreign behaviour of one QtqIconvOpen call: the _ILECALLX return code and
the iconv_t the foreign side writes into the result slot. -/
structure OpenEffect where
  rc : Int
  cd : iconv_t
deriving DecidableEq, Repr

/-- iconv_open: raises on nonzero _ILECALLX return, otherwise returns the
iconv_t written by the foreign side (open failure is in-band via cd.rtn). -/
def iconv_open (eff : OpenEffect) : Except String iconv_t :=
  if eff.rc ≠ 0 then Except.error "Failed to call QtqIconvOpen with _ILECALL"
  else Except.ok eff.cd

/-- Foreign behaviour of one iconv_close call. -/
structure CloseEffect where
  rc : Int
  result_hi : Nat
deriving DecidableEq, Repr

/-- iconv_close: raises on nonzero _ILECALLX return, else returns result.hi. -/
def iconv_close (eff : CloseEffect) : Except String Nat :=
  if eff.rc ≠ 0 then Except.error "Failed to call iconv_close with _ILECALL"
  else Except.ok eff.result_hi

/-- out_len = c_uint(8); out_buf = create_string_buffer(out_len.value). -/
def out_buf_capacity : Nat := 8

/-- Python slice `xs[:stop]` for a possibly negative stop. -/
def pySliceTo (stop : Int) (xs : List Nat) : List Nat :=
  if 0 ≤ stop then xs.take stop.toNat
  else xs.take (xs.length - (-stop).toNat)

/-- Foreign behaviour of one iconv call on a given input: the _ILECALLX return
code, the value of arglist.base.result.hi, the contents of the 8-byte output
buffer after the call, and the remaining-length value written into out_len. -/
structure ConvEffect where
  rc : Int
  result_hi : Nat
  out_buf : List Nat
  out_len : Nat
deriving DecidableEq, Repr

/-- out_size = len(out_buf) - out_len.value; return out_buf.raw[:out_size]. -/
def iconv_out (eff : ConvEffect) : List Nat :=
  pySliceTo ((out_buf_capacity : Int) - (eff.out_len : Int)) eff.out_buf

/-- iconv: raises on nonzero _ILECALLX return, else returns
(result.hi, the consumed prefix of the output buffer). -/
def iconv (eff : ConvEffect) (data : List Nat) : Except String (Nat × List Nat) :=
  if eff.rc ≠ 0 then Except.error "Failed to call iconv with _ILECALL"
  else Except.ok (eff.result_hi, iconv_out eff)

/-- Foreign behaviour of one QTQGESP program call: the _PGMCALL return code,
the encoding-scheme word written into `es`, and the 3-element feedback array. -/
structure ProbeEffect where
  rc : Int
  es : Int
  fb : List Int
deriving DecidableEq, Repr

/-- get_encoding_scheme: raises on nonzero _PGMCALL return; returns -1 when
any feedback element is nonzero, otherwise the classification code es. -/
def get_encoding_scheme (eff : ProbeEffect) : Except String Int :=
  if eff.rc ≠ 0 then Except.error "_PGMCALL"
  else if eff.fb.any (fun x => x != 0) then Except.ok (-1)
  else Except.ok eff.es

/-- The driver's reading of a classification code:
`if es not in (0x1100, 0x1200): continue`, with es == 0x1100 selecting the
256-entry single-byte table in dump_conv_table. -/
inductive Scheme
  | singleByte
  | doubleByte
  | unsupported
deriving DecidableEq, Repr

/-- How the module driver loop interprets the value get_encoding_scheme
returned: 0x1100 is single-byte, 0x1200 is double-byte, all else is skipped. -/
def driver_classify (es : Int) : Scheme :=
  if es = 0x1100 then Scheme.singleByte
  else if es = 0x1200 then Scheme.doubleByte
  else Scheme.unsupported

/-- The probe followed by the driver's interpretation of its result. -/
def classify (eff : ProbeEffect) : Except String Scheme :=
  (get_encoding_scheme eff).map driver_classify

/-- cp.to_bytes(w, byteorder='big'). -/
def to_bytes_be (w n : Nat) : List Nat :=
  (List.range w).map (fun i => n / 256 ^ (w - 1 - i) % 256)

/-- max_cp in dump_conv_table: 256 when es == 0x1100, else 65536. -/
def table_size (es : Int) : Nat :=
  if es = 0x1100 then 256 else 65536

/-- cp_size in dump_conv_table: 1 when es == 0x1100, else 2. -/
def cp_width (es : Int) : Nat :=
  if es = 0x1100 then 1 else 2

/-- One foreign call made during a dump_conv_table run. -/
inductive CallEvent
  | openEv
  | convEv (data : List Nat)
  | closeEv
deriving DecidableEq, Repr

/-- Foreign behaviour of a whole dump_conv_table run: one open effect, one
conversion effect per input byte string, one close effect. -/
structure ForeignIconv where
  openEff : OpenEffect
  convEff : List Nat → ConvEffect
  closeEff : CloseEffect

/-- The `for cp in range(max_cp)` body of dump_conv_table over an explicit
codepoint list, also recording the iconv calls performed.  A raised
RuntimeError aborts the loop and propagates. -/
def conv_loop (F : ForeignIconv) (w : Nat) :
    List Nat → Except String (List (List Nat)) × List CallEvent
  | [] => (Except.ok [], [])
  | cp :: rest =>
    let data := to_bytes_be w cp
    match iconv (F.convEff data) data with
    | Except.error e => (Except.error e, [CallEvent.convEv data])
    | Except.ok (_, out) =>
      match conv_loop F w rest with
      | (r, t) => (r.map (fun tbl => out :: tbl), CallEvent.convEv data :: t)

/-- dump_conv_table: open the 1200 ← ccsid converter, bail out with no table
when cd.rtn == -1, otherwise convert every codepoint 0..max_cp-1 in order and
close.  The second component records the foreign calls performed. -/
def dump_conv_table (F : ForeignIconv) (es : Int) :
    Except String (Option (List (List Nat))) × List CallEvent :=
  match iconv_open F.openEff with
  | Except.error e => (Except.error e, [CallEvent.openEv])
  | Except.ok cd =>
    if cd.rtn = -1 then
      (Except.ok none, [CallEvent.openEv])
    else
      match conv_loop F (cp_width es) (List.range (table_size es)) with
      | (Except.error e, t) => (Except.error e, CallEvent.openEv :: t)
      | (Except.ok table, t) =>
        match iconv_close F.closeEff with
        | Except.error e =>
          (Except.error e, CallEvent.openEv :: t ++ [CallEvent.closeEv])
        | Except.ok _ =>
          (Except.ok (some table), CallEvent.openEv :: t ++ [CallEvent.closeEv])

/-- Strict UTF-16BE decoding, `out.decode('utf-16be')`: pairs of bytes read
big-endian, surrogate pairs combined, failure (`none`, a UnicodeDecodeError in
Python) on an odd trailing byte, a lone low surrogate, or an unpaired high
surrogate.  The result is the list of decoded scalar values. -/
def decode_utf16be : List Nat → Option (List Nat)
  | [] => some []
  | [_] => none
  | b0 :: b1 :: rest =>
    let u := b0 * 256 + b1
    if 0xD800 ≤ u ∧ u ≤ 0xDBFF then
      match rest with
      | b2 :: b3 :: rest2 =>
        let v := b2 * 256 + b3
        if 0xDC00 ≤ v ∧ v ≤ 0xDFFF then
          (decode_utf16be rest2).map
            (fun l => (0x10000 + (u - 0xD800) * 0x400 + (v - 0xDC00)) :: l)
        else none
      | _ => none
    else if 0xDC00 ≤ u ∧ u ≤ 0xDFFF then none
    else (decode_utf16be rest).map (fun l => u :: l)

/-- The Python exceptions write_conv_txt can let escape: TypeError from
unicodedata.name/category applied to a non-single-character string, and
UnboundLocalError from reading `u` before any successful decode bound it. -/
inductive PyError
  | typeError
  | unboundLocalError
deriving DecidableEq, Repr

/-- The unicodedata collaborator, a black box per the script's scope: `name`
returns `none` where unicodedata.name would raise ValueError (no name),
`category` is total on single characters. -/
structure Unicodedata where
  name : Nat → Option String
  category : Nat → String

/-- Body of the `except ValueError` handler in write_conv_txt: it evaluates
unicodedata.category(u) on the current binding of `u` — the stale binding from
a previous iteration (or no binding at all) when the decode itself failed.
unicodedata.category raises TypeError unless `u` is a single character. -/
def value_error_handler (U : Unicodedata) (ub : Option (List Nat)) :
    Except PyError String :=
  match ub with
  | none => Except.error PyError.unboundLocalError
  | some u =>
    match u with
    | [c] =>
      Except.ok (if U.category c = "Cc" then "<control>" else "<unknown>")
    | _ => Except.error PyError.typeError

/-- One iteration of write_conv_txt's try/except block: decode `out`, look up
its name.  UnicodeDecodeError is a subclass of ValueError in Python, so a
decode failure is caught by the FIRST handler (`except ValueError`), never by
the later `except UnicodeDecodeError` — the `'<error>'` assignment there is
unreachable.  unicodedata.name raises an uncaught TypeError when the decoded
string is not exactly one character.  Returns the computed name (or the
escaping exception) together with the binding of `u` after the iteration. -/
def entry_name (U : Unicodedata) (ub : Option (List Nat)) (out : List Nat) :
    Except PyError String × Option (List Nat) :=
  match decode_utf16be out with
  | none => (value_error_handler U ub, ub)
  | some u =>
    match u with
    | [c] =>
      match U.name c with
      | some n => (Except.ok n, some u)
      | none => (value_error_handler U (some u), some u)
    | _ => (Except.error PyError.typeError, some u)

/-- Lowercase hexadecimal rendering of n, zero-padded to width w:
the "{:02x}" / "{:04x}" format fields. -/
def hexPad (w n : Nat) : String :=
  String.mk (List.replicate (w - (Nat.toDigits 16 n).length) '0' ++ Nat.toDigits 16 n)

/-- bytes.hex(): two lowercase hex digits per byte. -/
def bytesHex (bs : List Nat) : String :=
  String.join (bs.map (fun b => hexPad 2 b))

/-- One output line: "0x{:0wx}\t0x{}\t{}".format(cp, out.hex(), name). -/
def write_line (w cp : Nat) (out : List Nat) (name : String) : String :=
  "0x" ++ hexPad w cp ++ "\t0x" ++ bytesHex out ++ "\t" ++ name

/-- The `for cp, out in enumerate(table)` loop of write_conv_txt, threading
the binding of `u` between iterations; an escaping exception aborts it. -/
def write_conv_txt_loop (U : Unicodedata) (w : Nat) (ub : Option (List Nat))
    (cp : Nat) : List (List Nat) → Except PyError (List String)
  | [] => Except.ok []
  | out :: rest =>
    match entry_name U ub out with
    | (Except.error e, _) => Except.error e
    | (Except.ok name, ub2) =>
      (write_conv_txt_loop U w ub2 (cp + 1) rest).map
        (fun ls => write_line w cp out name :: ls)

/-- write_conv_txt: 2 hex digits for the codepoint of a 256-entry table,
4 otherwise; then one line per entry.  Returns the lines printed, or the
exception that escaped. -/
def write_conv_txt (U : Unicodedata) (table : List (List Nat)) :
    Except PyError (List String) :=
  write_conv_txt_loop U (if table.length = 256 then 2 else 4) none 0 table

/-- The module driver loop `for ccsid in range(1, 65535): ...` over an
explicit identifier list, with the per-identifier body abstracted as `work`.
The body is NOT wrapped in any try/except, so a raised exception propagates
out of the loop.  Returns the identifiers whose body was entered and the
uncaught exception, if any. -/
def driver_loop (work : Nat → Except String Unit) :
    List Nat → List Nat × Option String
  | [] => ([], none)
  | c :: rest =>
    match work c with
    | Except.error e => ([c], some e)
    | Except.ok _ =>
      match driver_loop work rest with
      | (l, r) => (c :: l, r)

/-- Concrete foreign behaviour used to witness the dump_conv_table theorems:
open succeeds with rtn = 0, every conversion succeeds writing back 6 of the 8
buffer bytes as remaining, close succeeds. -/
def Fw : ForeignIconv where
  openEff := ⟨0, ⟨0, []⟩⟩
  convEff := fun _ => ⟨0, 0, [1, 2, 3, 4, 5, 6, 7, 8], 6⟩
  closeEff := ⟨0, 0⟩

/-- Foreign behaviour whose open call succeeds at the bridge level but whose
converter construction failed: the foreign side wrote rtn = -1. -/
def Ffail : ForeignIconv where
  openEff := ⟨0, ⟨-1, []⟩⟩
  convEff := fun _ => ⟨0, 0, [0, 0, 0, 0, 0, 0, 0, 0], 8⟩
  closeEff := ⟨0, 0⟩

/-- Concrete unicodedata collaborator for evaluating write_conv_txt: only
U+0041 has a name, codepoints below 0x20 are category Cc, the rest Lu. -/
def U0 : Unicodedata where
  name := fun c => if c = 0x41 then some "LATIN CAPITAL LETTER A" else none
  category := fun c => if c < 0x20 then "Cc" else "Lu"

/-- Concrete probe behaviour: _PGMCALL succeeds, classification code 777,
middle feedback element nonzero. -/
def probeW : ProbeEffect := ⟨0, 777, [0, 1, 0]⟩

/-- Concrete conversion behaviour: call succeeds, 2 of the 8 buffer bytes
consumed (remaining length 6). -/
def convW : ConvEffect := ⟨0, 1, [1, 2, 3, 4, 5, 6, 7, 8], 6⟩

/-- When every iconv call succeeds, the dump loop over a codepoint list
returns the per-codepoint consumed outputs, one conversion event each,
in list order. -/
theorem conv_loop_ok (F : ForeignIconv) (w : Nat)
    (h : ∀ d, (F.convEff d).rc = 0) (l : List Nat) :
    conv_loop F w l =
      (Except.ok (l.map (fun cp => iconv_out (F.convEff (to_bytes_be w cp)))),
       l.map (fun cp => CallEvent.convEv (to_bytes_be w cp))) := by
  induction l with
  | nil => rfl
  | cons cp rest ih =>
    simp [conv_loop, iconv, h, ih, Except.map]

/-- Full reduction of a dump_conv_table run in which the open call, every
conversion and the close call all succeed at the bridge level and the
converter was constructed (rtn is not the -1 sentinel). -/
theorem dump_conv_table_ok (F : ForeignIconv) (es : Int)
    (hopen : F.openEff.rc = 0) (hrtn : F.openEff.cd.rtn ≠ -1)
    (hconv : ∀ d, (F.convEff d).rc = 0) (hclose : F.closeEff.rc = 0) :
    dump_conv_table F es =
      (Except.ok (some ((List.range (table_size es)).map
          (fun cp => iconv_out (F.convEff (to_bytes_be (cp_width es) cp))))),
       CallEvent.openEv ::
         (List.range (table_size es)).map
           (fun cp => CallEvent.convEv (to_bytes_be (cp_width es) cp))
         ++ [CallEvent.closeEv]) := by
  simp [dump_conv_table, iconv_open, hopen, hrtn,
        conv_loop_ok F (cp_width es) hconv, iconv_close, hclose]

/-- Claim C1: whenever the open succeeds, dump_conv_table returns a table of
exactly 256 entries for es == 0x1100 and 65536 entries otherwise, entry i
being the iconv output for the big-endian byte representation of codepoint i
(1 byte wide for single-byte, 2 for double-byte), with codepoints converted
in increasing order 0..N-1. -/
theorem dump_conv_table_spec (F : ForeignIconv) (es : Int)
    (hopen : F.openEff.rc = 0) (hrtn : F.openEff.cd.rtn ≠ -1)
    (hconv : ∀ d, (F.convEff d).rc = 0) (hclose : F.closeEff.rc = 0) :
    ∃ t, (dump_conv_table F es).1 = Except.ok (some t) ∧
      t.length = (if es = 0x1100 then 256 else 65536) ∧
      (∀ i, ∀ hi : i < t.length,
        iconv (F.convEff (to_bytes_be (cp_width es) i)) (to_bytes_be (cp_width es) i)
          = Except.ok ((F.convEff (to_bytes_be (cp_width es) i)).result_hi,
              t.get ⟨i, hi⟩)) ∧
      (dump_conv_table F es).2 =
        CallEvent.openEv ::
          (List.range (table_size es)).map
            (fun cp => CallEvent.convEv (to_bytes_be (cp_width es) cp))
          ++ [CallEvent.closeEv] := by
  have hd := dump_conv_table_ok F es hopen hrtn hconv hclose
  refine ⟨(List.range (table_size es)).map
      (fun cp => iconv_out (F.convEff (to_bytes_be (cp_width es) cp))),
    by rw [hd], ?_, ?_, by rw [hd]⟩
  · simp [table_size]
  · intro i hi
    simp only [List.length_map, List.length_range] at hi
    simp [iconv, hconv, List.get_eq_getElem, List.getElem_map, List.getElem_range]

theorem dump_conv_table_spec_witness :
    Fw.openEff.rc = 0 ∧ Fw.openEff.cd.rtn ≠ -1 ∧ (∀ d, (Fw.convEff d).rc = 0) ∧
      Fw.closeEff.rc = 0 ∧
      (∃ t, (dump_conv_table Fw 0x1100).1 = Except.ok (some t) ∧
        t.length = (if (0x1100 : Int) = 0x1100 then 256 else 65536) ∧
        (∀ i, ∀ hi : i < t.length,
          iconv (Fw.convEff (to_bytes_be (cp_width 0x1100) i))
              (to_bytes_be (cp_width 0x1100) i)
            = Except.ok ((Fw.convEff (to_bytes_be (cp_width 0x1100) i)).result_hi,
                t.get ⟨i, hi⟩)) ∧
        (dump_conv_table Fw 0x1100).2 =
          CallEvent.openEv ::
            (List.range (table_size 0x1100)).map
              (fun cp => CallEvent.convEv (to_bytes_be (cp_width 0x1100) cp))
            ++ [CallEvent.closeEv]) :=
  ⟨rfl, by decide, fun _ => rfl, rfl,
    dump_conv_table_spec Fw 0x1100 rfl (by decide) (fun _ => rfl) rfl⟩

/-- Claim C2: the probe reports unsupported whenever any feedback element is
nonzero; otherwise the driver reads the classification code as single-byte
for 0x1100, double-byte for 0x1200, and unsupported for anything else. -/
theorem classify_spec (eff : ProbeEffect) (h : eff.rc = 0) :
    (eff.fb.any (fun x => x != 0) = true →
      classify eff = Except.ok Scheme.unsupported) ∧
    (eff.fb.any (fun x => x != 0) = false →
      classify eff =
        Except.ok (if eff.es = 0x1100 then Scheme.singleByte
          else if eff.es = 0x1200 then Scheme.doubleByte
          else Scheme.unsupported)) ∧
    (eff.fb.any (fun x => x != 0) = false → eff.es ≠ 0x1100 → eff.es ≠ 0x1200 →
      classify eff = Except.ok Scheme.unsupported) := by
  refine ⟨?_, ?_, ?_⟩
  · intro hfb
    have hge : get_encoding_scheme eff = Except.ok (-1) := by
      simp [get_encoding_scheme, h, hfb]
    unfold classify
    rw [hge]
    rfl
  · intro hfb
    have hge : get_encoding_scheme eff = Except.ok eff.es := by
      simp [get_encoding_scheme, h, hfb]
    unfold classify
    rw [hge]
    rfl
  · intro hfb h1 h2
    have hge : get_encoding_scheme eff = Except.ok eff.es := by
      simp [get_encoding_scheme, h, hfb]
    unfold classify
    rw [hge]
    simp [Except.map, driver_classify, h1, h2]

theorem classify_spec_witness :
    probeW.rc = 0 ∧
    ((probeW.fb.any (fun x => x != 0) = true →
        classify probeW = Except.ok Scheme.unsupported) ∧
     (probeW.fb.any (fun x => x != 0) = false →
        classify probeW =
          Except.ok (if probeW.es = 0x1100 then Scheme.singleByte
            else if probeW.es = 0x1200 then Scheme.doubleByte
            else Scheme.unsupported)) ∧
     (probeW.fb.any (fun x => x != 0) = false → probeW.es ≠ 0x1100 →
        probeW.es ≠ 0x1200 → classify probeW = Except.ok Scheme.unsupported)) :=
  ⟨rfl, classify_spec probeW rfl⟩

/-- Claim C3: a converter-construction failure is signalled in-band — when the
bridge call itself succeeded, iconv_open returns (does not raise) the iconv_t
carrying the rtn = -1 sentinel, and dump_conv_table checks that sentinel
first, returning no table and performing no convert or close call. -/
theorem iconv_open_inband_spec (F : ForeignIconv) (es : Int)
    (hopen : F.openEff.rc = 0) (hrtn : F.openEff.cd.rtn = -1) :
    iconv_open F.openEff = Except.ok F.openEff.cd ∧
    (dump_conv_table F es).1 = Except.ok none ∧
    (dump_conv_table F es).2 = [CallEvent.openEv] ∧
    (∀ d, CallEvent.convEv d ∉ (dump_conv_table F es).2) ∧
    CallEvent.closeEv ∉ (dump_conv_table F es).2 := by
  have h1 : iconv_open F.openEff = Except.ok F.openEff.cd := by
    simp [iconv_open, hopen]
  have h2 : dump_conv_table F es = (Except.ok none, [CallEvent.openEv]) := by
    simp [dump_conv_table, h1, hrtn]
  refine ⟨h1, by rw [h2], by rw [h2], ?_, by rw [h2]; simp⟩
  intro d
  rw [h2]
  simp

theorem iconv_open_inband_spec_witness :
    Ffail.openEff.rc = 0 ∧ Ffail.openEff.cd.rtn = -1 ∧
    (iconv_open Ffail.openEff = Except.ok Ffail.openEff.cd ∧
      (dump_conv_table Ffail 0x1200).1 = Except.ok none ∧
      (dump_conv_table Ffail 0x1200).2 = [CallEvent.openEv] ∧
      (∀ d, CallEvent.convEv d ∉ (dump_conv_table Ffail 0x1200).2) ∧
      CallEvent.closeEv ∉ (dump_conv_table Ffail 0x1200).2) :=
  ⟨rfl, rfl, iconv_open_inband_spec Ffail 0x1200 rfl rfl⟩

/-- Claim C4: every _ILECALLX-based operation raises exactly when the foreign
call primitive returns nonzero, and never raises on a zero return — foreign
call failures are never silently swallowed. -/
theorem bridge_nonzero_raises_spec (e1 : ErrnoEffect) (e2 : OpenEffect)
    (e3 : CloseEffect) (e4 : ConvEffect) (data : List Nat) :
    ((∃ v, get_ile_errno e1 = Except.ok v) ↔ e1.rc = 0) ∧
    ((∃ m, get_ile_errno e1 = Except.error m) ↔ e1.rc ≠ 0) ∧
    ((∃ v, iconv_open e2 = Except.ok v) ↔ e2.rc = 0) ∧
    ((∃ m, iconv_open e2 = Except.error m) ↔ e2.rc ≠ 0) ∧
    ((∃ v, iconv_close e3 = Except.ok v) ↔ e3.rc = 0) ∧
    ((∃ m, iconv_close e3 = Except.error m) ↔ e3.rc ≠ 0) ∧
    ((∃ v, iconv e4 data = Except.ok v) ↔ e4.rc = 0) ∧
    ((∃ m, iconv e4 data = Except.error m) ↔ e4.rc ≠ 0) := by
  unfold get_ile_errno iconv_open iconv_close iconv
  by_cases h1 : e1.rc = 0 <;> by_cases h2 : e2.rc = 0 <;>
    by_cases h3 : e3.rc = 0 <;> by_cases h4 : e4.rc = 0 <;>
    simp [h1, h2, h3, h4]

/-- Claim C5: the lazy-attribute pattern caches the first successful symbol
resolution: a later call returns the identical handle with no new load, for
any behaviour the resolution primitive would now have; a failed resolution
leaves the attribute unset, so the next call attempts resolution again. -/
theorem lazy_resolve_cache_spec (p : ILEPointer) (a : Except String ILEPointer)
    (e : String) :
    lazy_resolve none (Except.ok p) = (Except.ok p, some p, 1) ∧
    lazy_resolve (some p) a = (Except.ok p, some p, 0) ∧
    lazy_resolve none (Except.error e) = (Except.error e, none, 1) :=
  ⟨rfl, rfl, rfl⟩

/-- Claim C6: iconv uses a fixed 8-byte output buffer and, on a successful
call, returns exactly the first (8 - remaining) bytes of that buffer, where
remaining is the out_len value the foreign side wrote back. -/
theorem iconv_outbuf_spec (eff : ConvEffect) (data : List Nat)
    (hrc : eff.rc = 0) (hlen : eff.out_buf.length = out_buf_capacity)
    (hrem : eff.out_len ≤ out_buf_capacity) :
    out_buf_capacity = 8 ∧
    iconv eff data =
      Except.ok (eff.result_hi, eff.out_buf.take (8 - eff.out_len)) ∧
    (iconv_out eff).length = 8 - eff.out_len := by
  have hrem8 : eff.out_len ≤ 8 := hrem
  have hlen8 : eff.out_buf.length = 8 := hlen
  have hout : iconv_out eff = eff.out_buf.take (8 - eff.out_len) := by
    unfold iconv_out pySliceTo out_buf_capacity
    rw [if_pos (by omega)]
    congr 1
    omega
  refine ⟨rfl, ?_, ?_⟩
  · simp [iconv, hrc, hout]
  · rw [hout]
    simp [List.length_take, hlen8]

theorem iconv_outbuf_spec_witness :
    convW.rc = 0 ∧ convW.out_buf.length = out_buf_capacity ∧
    convW.out_len ≤ out_buf_capacity ∧
    (out_buf_capacity = 8 ∧
      iconv convW [0x40] =
        Except.ok (convW.result_hi, convW.out_buf.take (8 - convW.out_len)) ∧
      (iconv_out convW).length = 8 - convW.out_len) :=
  ⟨rfl, rfl, by decide, iconv_outbuf_spec convW [0x40] rfl rfl (by decide)⟩

/-- Claim C7: get_ile_errno invokes the accessor with the empty signature
(just the ARG_END = 0 sentinel), copies exactly 4 bytes of the foreign errno
cell, and returns them read as a big-endian unsigned integer. -/
theorem get_ile_errno_be_spec (b0 b1 b2 b3 : Nat) :
    get_ile_errno ⟨0, [b0, b1, b2, b3]⟩ =
      Except.ok (b0 * 16777216 + b1 * 65536 + b2 * 256 + b3) ∧
    get_ile_errno_signature = [ARG_END] ∧ ARG_END = 0 ∧ errno_copy_len = 4 := by
  refine ⟨?_, rfl, rfl, rfl⟩
  have h : get_ile_errno ⟨0, [b0, b1, b2, b3]⟩ =
      Except.ok ((((0 * 256 + b0) * 256 + b1) * 256 + b2) * 256 + b3) := rfl
  rw [h, Except.ok.injEq]
  ring

/-- The driver loop stops at the first identifier whose body raises: the
identifiers before it all ran, the failing one ran, the ones after it were
never entered, and the exception escapes the loop uncaught. -/
theorem driver_loop_abort_spec (work : Nat → Except String Unit) (pre : List Nat)
    (c : Nat) (post : List Nat) (e : String)
    (hpre : ∀ x ∈ pre, work x = Except.ok ()) (hc : work c = Except.error e) :
    driver_loop work (pre ++ c :: post) = (pre ++ [c], some e) := by
  induction pre with
  | nil => simp [driver_loop, hc]
  | cons p rest ih =>
    have hp : work p = Except.ok () := hpre p (by simp)
    have ih2 := ih (fun x hx => hpre x (by simp [hx]))
    simp [driver_loop, hp, ih2]

theorem driver_loop_abort_spec_witness :
    (∀ x ∈ ([1] : List Nat),
      (fun c => if c = 2 then (Except.error "boom" : Except String Unit)
        else Except.ok ()) x = Except.ok ()) ∧
    (fun c => if c = 2 then (Except.error "boom" : Except String Unit)
      else Except.ok ()) 2 = Except.error "boom" ∧
    driver_loop
        (fun c => if c = 2 then Except.error "boom" else Except.ok ())
        ([1] ++ 2 :: [3]) = ([1] ++ [2], some "boom") :=
  ⟨by intro x hx; simp at hx; subst hx; rfl, rfl,
    driver_loop_abort_spec _ [1] 2 [3] "boom"
      (by intro x hx; simp at hx; subst hx; rfl) rfl⟩

/-- Claim C8 fails on the code: the driver loop body is not wrapped, so an
exception raised while processing identifier 2 escapes the loop and
identifier 3 is never processed. -/
theorem driver_loop_wrap_cex :
    (driver_loop
        (fun c => if c = 2 then Except.error "boom" else Except.ok ())
        [1, 2, 3]).2 = some "boom" ∧
    3 ∉ (driver_loop
        (fun c => if c = 2 then Except.error "boom" else Except.ok ())
        [1, 2, 3]).1 := by
  constructor
  · rfl
  · decide

/-- Claim C9 names a behaviour the code does not have: because
UnicodeDecodeError is a subclass of ValueError, the first except clause
catches decode failures and the dedicated UnicodeDecodeError clause assigning
the name '<error>' is dead.  On a table whose first entry is the single
(odd-length, hence undecodable) byte 0x00, the handler evaluates
unicodedata.category(u) with u unbound and an UnboundLocalError escapes; when
a previous entry did decode, the stale character's category is used instead
and '<unknown>' is printed, never '<error>'. -/
theorem write_conv_txt_error_branch_dead :
    write_conv_txt U0 [[0x00]] = Except.error PyError.unboundLocalError ∧
    write_conv_txt U0 [[0x00, 0x41], [0x00]] =
      Except.ok ["0x0000\t0x0041\tLATIN CAPITAL LETTER A",
                 "0x0001\t0x00\t<unknown>"] := by
  constructor
  · rfl
  · rfl

/-- An entry that always makes the name computation raise makes the whole
write loop raise as soon as the table contains it. -/
theorem write_loop_err_of_mem (U : Unicodedata) (w : Nat) (out : List Nat)
    (herr : ∀ ub, ∃ e, (entry_name U ub out).1 = Except.error e) :
    ∀ (l : List (List Nat)) (ub : Option (List Nat)) (cp : Nat), out ∈ l →
      ∃ e, write_conv_txt_loop U w ub cp l = Except.error e := by
  intro l
  induction l with
  | nil =>
    intro ub cp hmem
    simp at hmem
  | cons o rest ih =>
    intro ub cp hmem
    rcases hpair : entry_name U ub o with ⟨r, ub3⟩
    cases r with
    | error e2 =>
      refine ⟨e2, ?_⟩
      unfold write_conv_txt_loop
      rw [hpair]
    | ok nm =>
      rcases List.mem_cons.mp hmem with hh | ht
      · obtain ⟨e, he⟩ := herr ub
        rw [hh] at he
        rw [hpair] at he
        simp at he
      · obtain ⟨e, he⟩ := ih ub3 (cp + 1) ht
        refine ⟨e, ?_⟩
        unfold write_conv_txt_loop
        rw [hpair]
        show Except.map (fun ls => write_line w cp o nm :: ls)
          (write_conv_txt_loop U w ub3 (cp + 1) rest) = Except.error e
        rw [he]
        rfl

/-- Claim C10: when a table entry's bytes decode to a string of length other
than one (for example the empty byte sequence), unicodedata.name raises a
TypeError, which neither except clause handles, so write_conv_txt raises for
any table containing such an entry. -/
theorem write_conv_txt_typeerror_spec (U : Unicodedata) (ub : Option (List Nat))
    (out : List Nat) (u : List Nat) (table : List (List Nat))
    (hdec : decode_utf16be out = some u) (hlen : u.length ≠ 1) :
    (entry_name U ub out).1 = Except.error PyError.typeError ∧
    (out ∈ table → ∃ e, write_conv_txt U table = Except.error e) := by
  have hname : ∀ ub2, (entry_name U ub2 out).1 = Except.error PyError.typeError := by
    intro ub2
    unfold entry_name
    rw [hdec]
    rcases u with _ | ⟨a, _ | ⟨b, rest⟩⟩
    · rfl
    · exact absurd rfl hlen
    · rfl
  refine ⟨hname ub, ?_⟩
  intro hmem
  unfold write_conv_txt
  exact write_loop_err_of_mem U _ out
    (fun ub2 => ⟨PyError.typeError, hname ub2⟩) table none 0 hmem

theorem write_conv_txt_typeerror_spec_witness :
    decode_utf16be [] = some [] ∧ ([] : List Nat).length ≠ 1 ∧
    ((entry_name U0 none []).1 = Except.error PyError.typeError ∧
      ([] ∈ [([] : List Nat)] → ∃ e, write_conv_txt U0 [[]] = Except.error e)) :=
  ⟨rfl, by decide, write_conv_txt_typeerror_spec U0 none [] [] [[]] rfl (by decide)⟩

end DumpEbcdic
